import Mathlib

/-!
Verification of the Bedrock chat-completion adapter
(`biz/llm/client/bedrock.py`).

The Python module defines a class `BedrockClient` with
- `__init__`: credential resolution (ambient IAM role first, explicit
  environment keys as fallback, raising `ValueError` on partial credentials);
- `_convert_to_bedrock_messages`: pure conversion from OpenAI-style messages
  to the Bedrock Messages API shape;
- `completions`: builds the request body, invokes the remote model, and
  normalizes every outcome (success, `ClientError`, any other exception)
  into a plain string.

We embed these shallowly: Python dictionaries with possibly-missing keys
become structures over `Option String`, Python truthiness is made explicit,
and the remote call's behavior is an input (`InvokeOutcome`).  Exceptions
are an explicit `Except` channel so that the catch-all contract of
`completions` is a provable statement rather than a typing artifact.
-/

namespace Bedrock

/-- Python truthiness of a string: `""` is falsy, everything else truthy. -/
def pyTruthyStr (s : String) : Bool := s ≠ ""

/-- Python truthiness of an optional string: `None` and `""` are falsy. -/
def pyTruthyOptStr : Option String → Bool
  | none => false
  | some s => pyTruthyStr s

/-- Python's `str.strip()` with no argument: remove whitespace from both
ends of the string.  Defined structurally over the character list so that
it evaluates by kernel reduction. -/
def pyStrip (s : String) : String :=
  ⟨((s.data.dropWhile Char.isWhitespace).reverse.dropWhile Char.isWhitespace).reverse⟩

/-- An input message, a Python dict that may lack either key
(`message.get("role", "")` / `message.get("content", "")`). -/
structure Message where
  role : Option String
  content : Option String
  deriving Repr, DecidableEq

/-- `message.get("role", "")`. -/
def Message.getRole (m : Message) : String := m.role.getD ""

/-- `message.get("content", "")`. -/
def Message.getContent (m : Message) : String := m.content.getD ""

/-- One element of a Bedrock message's content list:
`{"type": "text", "text": ...}`. -/
structure ContentBlock where
  type : String
  text : String
  deriving Repr, DecidableEq

/-- A message in Bedrock Messages API format. -/
structure BedrockMessage where
  role : String
  content : List ContentBlock
  deriving Repr, DecidableEq

/-- The dict returned by `_convert_to_bedrock_messages`:
`{"messages": ..., "system": ...}` where `system` is `None` when no
system message was seen. -/
structure ConvertedRequest where
  messages : List BedrockMessage
  system : Option String
  deriving Repr, DecidableEq

/-- One iteration of the loop in `_convert_to_bedrock_messages`: the
accumulator is the `bedrock_messages` list so far together with the
running `system_message` variable. -/
def convertStep (acc : List BedrockMessage × Option String) (m : Message) :
    List BedrockMessage × Option String :=
  let role := m.getRole
  let content := m.getContent
  if role = "system" then
    (acc.1, some content)
  else if role = "user" then
    (acc.1 ++ [⟨"user", [⟨"text", content⟩]⟩], acc.2)
  else if role = "assistant" then
    (acc.1 ++ [⟨"assistant", [⟨"text", content⟩]⟩], acc.2)
  else
    acc

/-- `BedrockClient._convert_to_bedrock_messages`: iterate the input in
order starting from an empty list and `system_message = None`. -/
def convert_to_bedrock_messages (messages : List Message) : ConvertedRequest :=
  let r := messages.foldl convertStep ([], none)
  ⟨r.1, r.2⟩

/-- The JSON request body assembled in `completions`.  `system` is `some`
exactly when the Python body dict carries a `"system"` key. -/
structure RequestBody where
  messages : List BedrockMessage
  max_tokens : Nat
  temperature : ℚ
  top_p : ℚ
  anthropic_version : String
  system : Option String
  deriving Repr, DecidableEq

/-- The arguments of the `self.client.invoke_model(...)` call. -/
structure InvokeCall where
  body : RequestBody
  modelId : String
  accept : String
  contentType : String
  deriving Repr, DecidableEq

/-- `model = model or self.default_model`: the explicit argument wins only
when it is truthy (`NOT_GIVEN`, `None` and `""` all fall back). -/
def resolveModel (defaultModel : String) (model : Option String) : String :=
  match model with
  | some s => if pyTruthyStr s then s else defaultModel
  | none => defaultModel

/-- The request-building prefix of `completions`: converts the messages,
serializes the fixed parameters, and adds a `"system"` key only when
`bedrock_messages["system"]` is truthy. -/
def buildInvokeCall (defaultModel : String) (messages : List Message)
    (model : Option String) : InvokeCall :=
  let bedrock_messages := convert_to_bedrock_messages messages
  { body :=
      { messages := bedrock_messages.messages
        max_tokens := 4000
        temperature := 7/10
        top_p := 9/10
        anthropic_version := "bedrock-2023-05-31"
        system :=
          if pyTruthyOptStr bedrock_messages.system then
            bedrock_messages.system
          else
            none }
    modelId := resolveModel defaultModel model
    accept := "application/json"
    contentType := "application/json" }

/-- One element of the response's `content` list; the code reads its
`"text"` field. -/
structure ResponseItem where
  text : String
  deriving Repr, DecidableEq

/-- The parsed JSON response body.  `content = none` models a body with no
`"content"` key. -/
structure ResponseBody where
  content : Option (List ResponseItem)
  deriving Repr, DecidableEq

/-- The behavior of the remote `invoke_model` call: a parsed successful
response, a `botocore` `ClientError` carrying `e.response["Error"]["Code"]`
and `str(e)`, or any other exception carrying `str(e)`. -/
inductive InvokeOutcome where
  | success (body : ResponseBody)
  | clientError (code : String) (msg : String)
  | otherError (msg : String)
  deriving Repr, DecidableEq

/-- The exceptions the `try` block of `completions` can raise. -/
inductive PyExn where
  | clientError (code : String) (msg : String)
  | other (msg : String)
  deriving Repr, DecidableEq

/-- `"and response_body['content']"`: truthiness of the content value —
a missing key fails the `in` test, an empty list is falsy. -/
def contentTruthy : Option (List ResponseItem) → Bool
  | none => false
  | some items => items ≠ []

/-- The `try` block of `completions` after the remote call: parse the
response on success, or raise the corresponding exception. -/
def completionsTry (outcome : InvokeOutcome) : Except PyExn String :=
  match outcome with
  | .success response_body =>
      match response_body.content with
      | some (item :: _) => .ok (pyStrip item.text)
      | _ => .ok "AI服务返回格式异常，请稍后重试"
  | .clientError code msg => .error (.clientError code msg)
  | .otherError msg => .error (.other msg)

/-- The `except ClientError` handler: dispatch on the error code. -/
def handleClientError (code msg : String) : String :=
  if code = "UnauthorizedOperation" then
    "Bedrock API认证失败，请检查AWS凭证是否正确"
  else if code = "ValidationException" then
    "Bedrock API请求参数错误，请检查模型ID是否正确"
  else
    "调用Bedrock API时出错: " ++ msg

/-- `BedrockClient.completions` with its exception channel explicit: run
the `try` block and apply the two `except` handlers.  An `Except.error`
result would mean an exception escaping `completions`. -/
def completionsRun (outcome : InvokeOutcome) : Except PyExn String :=
  match completionsTry outcome with
  | .ok s => .ok s
  | .error (.clientError code msg) => .ok (handleClientError code msg)
  | .error (.other msg) => .ok ("调用Bedrock API时出错: " ++ msg)

/-- The string `BedrockClient.completions` returns to its caller. -/
def completions (outcome : InvokeOutcome) : String :=
  match completionsRun outcome with
  | .ok s => s
  | .error _ => ""

/-- The environment variables read by `__init__`; `none` models an unset
variable (`os.getenv` returns `None`). -/
structure Env where
  bedrockApiModel : Option String
  awsAccessKeyId : Option String
  awsSecretAccessKey : Option String
  awsDefaultRegion : Option String
  deriving Repr, DecidableEq

/-- The remote-service client handle held by the adapter: either obtained
from ambient credentials or built from explicit keys and a region. -/
inductive ClientHandle where
  | ambient
  | explicitKeys (accessKey secretKey region : String)
  deriving Repr, DecidableEq

/-- The state a successfully constructed `BedrockClient` holds. -/
structure BedrockClientState where
  default_model : String
  client : ClientHandle
  deriving Repr, DecidableEq

/-- Whether `boto3.client('bedrock-runtime')` succeeds with ambient
credentials or raises `NoCredentialsError`. -/
inductive AmbientCredentials where
  | available
  | noCredentials
  deriving Repr, DecidableEq

/-- The message of the `ValueError` raised on partial credentials. -/
def credentialsErrorMsg : String :=
  "AWS credentials are required. Please set AWS_ACCESS_KEY_ID and AWS_SECRET_ACCESS_KEY environment variables or configure IAM role."

/-- `BedrockClient.__init__`: try ambient credentials, fall back to the
explicit environment keys, and raise `ValueError` when the access key or
the secret key is falsy on the fallback path. -/
def bedrockClientInit (ambient : AmbientCredentials) (env : Env) :
    Except String BedrockClientState :=
  let default_model := env.bedrockApiModel.getD "anthropic.claude-3-sonnet-20240229-v1:0"
  match ambient with
  | .available => .ok ⟨default_model, .ambient⟩
  | .noCredentials =>
      let aws_access_key := env.awsAccessKeyId
      let aws_secret_key := env.awsSecretAccessKey
      let aws_region := env.awsDefaultRegion.getD "us-east-1"
      if !pyTruthyOptStr aws_access_key || !pyTruthyOptStr aws_secret_key then
        .error credentialsErrorMsg
      else
        .ok ⟨default_model,
             .explicitKeys (aws_access_key.getD "") (aws_secret_key.getD "") aws_region⟩

/-! ### Helper characterizations of the conversion loop -/

/-- Messages the loop appends to the output: role `user` or `assistant`. -/
def keepMsg (m : Message) : Bool :=
  m.getRole == "user" || m.getRole == "assistant"

/-- Whether the loop treats a message as a system message. -/
def isSystemMsg (m : Message) : Bool := m.getRole == "system"

/-- How the loop rewraps a kept message. -/
def wrapMsg (m : Message) : BedrockMessage :=
  ⟨m.getRole, [⟨"text", m.getContent⟩]⟩

/-- Left-biased choice on optional strings. -/
def optOr : Option String → Option String → Option String
  | some a, _ => some a
  | none, b => b

/-- The system text the loop ends with: content of the last system
message, scanning from the right. -/
def lastSys : List Message → Option String
  | [] => none
  | m :: ms => optOr (lastSys ms) (if isSystemMsg m then some m.getContent else none)

lemma optOr_assoc (a b c : Option String) :
    optOr (optOr a b) c = optOr a (optOr b c) := by
  cases a <;> cases b <;> rfl

lemma convertStep_fst (acc : List BedrockMessage × Option String) (m : Message) :
    (convertStep acc m).1 =
      acc.1 ++ (if keepMsg m then [wrapMsg m] else []) := by
  by_cases h1 : m.getRole = "system" <;>
    by_cases h2 : m.getRole = "user" <;>
      by_cases h3 : m.getRole = "assistant" <;>
        simp_all [convertStep, keepMsg, wrapMsg]

lemma convertStep_snd (acc : List BedrockMessage × Option String) (m : Message) :
    (convertStep acc m).2 =
      optOr (if isSystemMsg m then some m.getContent else none) acc.2 := by
  by_cases h1 : m.getRole = "system" <;>
    by_cases h2 : m.getRole = "user" <;>
      by_cases h3 : m.getRole = "assistant" <;>
        simp_all [convertStep, isSystemMsg, optOr]

lemma foldl_convertStep_fst (ms : List Message)
    (acc : List BedrockMessage × Option String) :
    (ms.foldl convertStep acc).1 = acc.1 ++ (ms.filter keepMsg).map wrapMsg := by
  induction ms generalizing acc with
  | nil => simp
  | cons m ms ih =>
      rw [List.foldl_cons, ih, List.filter_cons]
      rw [convertStep_fst]
      by_cases h : keepMsg m <;> simp [h]

lemma foldl_convertStep_snd (ms : List Message)
    (acc : List BedrockMessage × Option String) :
    (ms.foldl convertStep acc).2 = optOr (lastSys ms) acc.2 := by
  induction ms generalizing acc with
  | nil => rfl
  | cons m ms ih =>
      rw [List.foldl_cons, ih, lastSys, optOr_assoc, convertStep_snd]

lemma convert_messages_eq (ms : List Message) :
    (convert_to_bedrock_messages ms).messages = (ms.filter keepMsg).map wrapMsg := by
  have h := foldl_convertStep_fst ms ([], none)
  simpa [convert_to_bedrock_messages] using h

lemma convert_system_eq (ms : List Message) :
    (convert_to_bedrock_messages ms).system = lastSys ms := by
  have h := foldl_convertStep_snd ms ([], none)
  have : optOr (lastSys ms) none = lastSys ms := by cases lastSys ms <;> rfl
  rw [this] at h
  simpa [convert_to_bedrock_messages] using h

lemma lastSys_eq_getLast (ms : List Message) :
    lastSys ms = ((ms.filter isSystemMsg).getLast?).map Message.getContent := by
  induction ms with
  | nil => rfl
  | cons m ms ih =>
      rw [lastSys, ih, List.filter_cons]
      by_cases h : isSystemMsg m
      · simp only [h, if_pos, List.getLast?_cons]
        cases hc : (ms.filter isSystemMsg).getLast? <;> simp [hc, optOr]
      · simp only [h]
        cases hc : (ms.filter isSystemMsg).getLast? <;> simp [hc, optOr]

/-- A role the conversion loop recognizes at all. -/
def knownRole (m : Message) : Bool :=
  m.getRole == "system" || m.getRole == "user" || m.getRole == "assistant"

lemma optOr_none_right (a : Option String) : optOr a none = a := by
  cases a <;> rfl

lemma converted_ext {r s : ConvertedRequest}
    (hm : r.messages = s.messages) (hs : r.system = s.system) : r = s := by
  cases r; cases s; simp_all

lemma knownRole_and_keep (m : Message) :
    (keepMsg m && knownRole m) = keepMsg m := by
  by_cases h1 : m.getRole = "system" <;>
    by_cases h2 : m.getRole = "user" <;>
      by_cases h3 : m.getRole = "assistant" <;>
        simp_all [knownRole, keepMsg]

lemma lastSys_filter_known (ms : List Message) :
    lastSys (ms.filter knownRole) = lastSys ms := by
  induction ms with
  | nil => rfl
  | cons m ms ih =>
      rw [List.filter_cons]
      by_cases hk : knownRole m
      · simp only [hk, if_pos]
        rw [lastSys, ih, lastSys]
      · have hsys : isSystemMsg m = false := by
          simp only [knownRole, Bool.or_eq_true, beq_iff_eq] at hk
          push_neg at hk
          simp [isSystemMsg, hk.1.1]
        have hk' : knownRole m = false := by simpa using hk
        simp [hk', ih, lastSys, hsys, optOr_none_right]

/-! ### The claims -/

/-- C1: for a successful remote response, `completions` returns the trimmed
`text` of the first element of a non-empty `content` list, and the fixed
abnormal-response-format fallback string when `content` is missing or
empty. -/
theorem c1_completions_success_parse (rb : ResponseBody) :
    (∀ item rest, rb.content = some (item :: rest) →
        completions (.success rb) = pyStrip item.text) ∧
    ((rb.content = none ∨ rb.content = some []) →
        completions (.success rb) = "AI服务返回格式异常，请稍后重试") := by
  constructor
  · intro item rest h
    simp [completions, completionsRun, completionsTry, h]
  · rintro (h | h) <;> simp [completions, completionsRun, completionsTry, h]

/-- Witness for C1 at the spec's scenario `{content: [{text: " Hello there "}]}`
and at a body with no `content` key. -/
theorem c1_witness :
    completions (.success ⟨some [⟨" Hello there "⟩]⟩) = "Hello there" ∧
    completions (.success ⟨none⟩) = "AI服务返回格式异常，请稍后重试" := by
  constructor
  · have h := (c1_completions_success_parse ⟨some [⟨" Hello there "⟩]⟩).1
      ⟨" Hello there "⟩ [] rfl
    rw [h]
    decide
  · exact (c1_completions_success_parse ⟨none⟩).2 (Or.inl rfl)

/-- C2: on a `ClientError`, the returned string is dispatched on the error
code: `UnauthorizedOperation` and `ValidationException` yield the two fixed
messages, any other code yields the templated message embedding `str(e)`. -/
theorem c2_completions_client_error (code msg : String) :
    (code = "UnauthorizedOperation" →
        completions (.clientError code msg) = "Bedrock API认证失败，请检查AWS凭证是否正确") ∧
    (code = "ValidationException" →
        completions (.clientError code msg) = "Bedrock API请求参数错误，请检查模型ID是否正确") ∧
    (code ≠ "UnauthorizedOperation" → code ≠ "ValidationException" →
        completions (.clientError code msg) = "调用Bedrock API时出错: " ++ msg) := by
  refine ⟨fun h => ?_, fun h => ?_, fun h1 h2 => ?_⟩ <;>
    simp [completions, completionsRun, completionsTry, handleClientError, *]

/-- Witness for C2 at the two recognized codes and a third, unrecognized
code. -/
theorem c2_witness :
    completions (.clientError "UnauthorizedOperation" "m") =
      "Bedrock API认证失败，请检查AWS凭证是否正确" ∧
    completions (.clientError "ValidationException" "m") =
      "Bedrock API请求参数错误，请检查模型ID是否正确" ∧
    completions (.clientError "ThrottlingException" "boom") =
      "调用Bedrock API时出错: boom" :=
  ⟨(c2_completions_client_error "UnauthorizedOperation" "m").1 rfl,
   (c2_completions_client_error "ValidationException" "m").2.1 rfl,
   (c2_completions_client_error "ThrottlingException" "boom").2.2
     (by decide) (by decide)⟩

/-- C3: whatever the remote call does (success, `ClientError`, or any other
exception), `completions` produces a string result — the explicit exception
channel of `completionsRun` never carries an error out. -/
theorem c3_completions_never_raises (outcome : InvokeOutcome) :
    ∃ s : String, completionsRun outcome = .ok s ∧ completions outcome = s := by
  cases outcome with
  | success rb =>
      rcases rb with ⟨content⟩
      rcases content with _ | ⟨_ | ⟨item, rest⟩⟩ <;> exact ⟨_, rfl, rfl⟩
  | clientError code msg => exact ⟨_, rfl, rfl⟩
  | otherError msg => exact ⟨_, rfl, rfl⟩

/-- C4: with exactly one system message and all other messages of role
`user` or `assistant`, `convert` puts the system message's content into
`system` and outputs the other messages in order, role unchanged, content
rewrapped as a one-element text block. -/
theorem c4_convert_single_system (ms : List Message) (m₀ : Message)
    (hone : ms.filter isSystemMsg = [m₀])
    (hrest : ∀ m ∈ ms, isSystemMsg m = false →
        m.getRole = "user" ∨ m.getRole = "assistant") :
    (convert_to_bedrock_messages ms).system = some m₀.getContent ∧
    (convert_to_bedrock_messages ms).messages =
      (ms.filter fun m => !isSystemMsg m).map
        (fun m => ⟨m.getRole, [⟨"text", m.getContent⟩]⟩) := by
  constructor
  · rw [convert_system_eq, lastSys_eq_getLast, hone]
    rfl
  · rw [convert_messages_eq]
    have hfil : ms.filter keepMsg = ms.filter fun m => !isSystemMsg m := by
      apply List.filter_congr
      intro m hm
      by_cases hs : isSystemMsg m
      · have : m.getRole = "system" := by
          simpa [isSystemMsg] using hs
        simp [keepMsg, this, hs]
      · rcases hrest m hm (by simpa using hs) with h | h <;>
          simp [keepMsg, h, hs]
    rw [hfil]
    rfl

/-- Witness for C4 at the spec's scenario
`[(system, "You are terse."), (user, "Hi")]`. -/
theorem c4_witness :
    (convert_to_bedrock_messages
        [⟨some "system", some "You are terse."⟩, ⟨some "user", some "Hi"⟩]).system =
      some "You are terse." ∧
    (convert_to_bedrock_messages
        [⟨some "system", some "You are terse."⟩, ⟨some "user", some "Hi"⟩]).messages =
      [⟨"user", [⟨"text", "Hi"⟩]⟩] := by
  have h := c4_convert_single_system
    [⟨some "system", some "You are terse."⟩, ⟨some "user", some "Hi"⟩]
    ⟨some "system", some "You are terse."⟩ (by decide) (by decide)
  exact ⟨h.1, h.2.trans (by decide)⟩

/-- C5: the `system` component of `convert` is the content of the last
system-role message when one exists (last write wins) and `none` when the
sequence contains no system-role message. -/
theorem c5_convert_system_last_wins (ms : List Message) :
    (convert_to_bedrock_messages ms).system =
      ((ms.filter isSystemMsg).getLast?).map Message.getContent :=
  (convert_system_eq ms).trans (lastSys_eq_getLast ms)

/-- C6: messages whose role is outside `{system, user, assistant}` are
dropped without error and change neither the output message sequence nor
the `system` component: conversion is unchanged by deleting them first. -/
theorem c6_unknown_roles_dropped (ms : List Message) :
    convert_to_bedrock_messages ms =
      convert_to_bedrock_messages (ms.filter knownRole) := by
  apply converted_ext
  · rw [convert_messages_eq, convert_messages_eq, List.filter_filter]
    have : (ms.filter fun a => keepMsg a && knownRole a) = ms.filter keepMsg := by
      apply List.filter_congr
      intro m _
      exact knownRole_and_keep m
    rw [this]
  · rw [convert_system_eq, convert_system_eq, lastSys_filter_known]

/-- C7 counterexample: a lone system message with empty content.  A system
text IS extracted by the conversion (`system = some ""`), yet the request
body carries no `system` field, because the code tests
`bedrock_messages["system"]` for truthiness, not for presence — refuting
the claimed "if and only if a system text was extracted". -/
theorem c7_counterexample :
    (convert_to_bedrock_messages [⟨some "system", some ""⟩]).system = some "" ∧
    (buildInvokeCall "m" [⟨some "system", some ""⟩] none).body.system = none :=
  ⟨rfl, rfl⟩

/-- C7 (amended): the request body carries the converted messages, the
fixed `max_tokens = 4000`, `temperature = 0.7`, `top_p = 0.9`, the fixed
protocol version, `application/json` accept and content-type markers, and
a `system` field set to the extracted system text if and only if a
NON-EMPTY system text was extracted. -/
theorem c7_request_body (dm : String) (ms : List Message) (model : Option String) :
    (buildInvokeCall dm ms model).body.messages =
        (convert_to_bedrock_messages ms).messages ∧
    (buildInvokeCall dm ms model).body.max_tokens = 4000 ∧
    (buildInvokeCall dm ms model).body.temperature = 7/10 ∧
    (buildInvokeCall dm ms model).body.top_p = 9/10 ∧
    (buildInvokeCall dm ms model).body.anthropic_version = "bedrock-2023-05-31" ∧
    (buildInvokeCall dm ms model).accept = "application/json" ∧
    (buildInvokeCall dm ms model).contentType = "application/json" ∧
    (∀ s, (convert_to_bedrock_messages ms).system = some s → s ≠ "" →
        (buildInvokeCall dm ms model).body.system = some s) ∧
    (((convert_to_bedrock_messages ms).system = none ∨
        (convert_to_bedrock_messages ms).system = some "") →
        (buildInvokeCall dm ms model).body.system = none) := by
  refine ⟨rfl, rfl, rfl, rfl, rfl, rfl, rfl, fun s hs hne => ?_, fun h => ?_⟩
  · simp [buildInvokeCall, hs, pyTruthyOptStr, pyTruthyStr, hne]
  · rcases h with h | h <;> simp [buildInvokeCall, h, pyTruthyOptStr, pyTruthyStr]

/-- Witness for C7 at a non-empty extracted system text and at an input
with no system message. -/
theorem c7_witness :
    (buildInvokeCall "d" [⟨some "system", some "S"⟩, ⟨some "user", some "Hi"⟩]
        none).body.system = some "S" ∧
    (buildInvokeCall "d" [⟨some "user", some "Hi"⟩] none).body.system = none :=
  ⟨(c7_request_body "d" [⟨some "system", some "S"⟩, ⟨some "user", some "Hi"⟩]
      none).2.2.2.2.2.2.2.1 "S" rfl (by decide),
   (c7_request_body "d" [⟨some "user", some "Hi"⟩] none).2.2.2.2.2.2.2.2
     (Or.inl rfl)⟩

/-- C8: when ambient credentials are unavailable and the access key or the
secret key environment variable is unset, construction raises the
credentials `ValueError` — no client is built from partial credentials. -/
theorem c8_init_partial_credentials (env : Env)
    (h : env.awsAccessKeyId = none ∨ env.awsSecretAccessKey = none) :
    bedrockClientInit .noCredentials env = .error credentialsErrorMsg := by
  rcases h with h | h <;> simp [bedrockClientInit, h, pyTruthyOptStr]

/-- Witness for C8 with every environment variable unset. -/
theorem c8_witness :
    bedrockClientInit .noCredentials ⟨none, none, none, none⟩ =
      .error credentialsErrorMsg :=
  c8_init_partial_credentials ⟨none, none, none, none⟩ (Or.inl rfl)

/-- C9 counterexample: an explicitly provided empty-string model argument
is NOT passed to the invoke call — `model or self.default_model` falls
back to the default because `""` is falsy — refuting the claim that the
explicit argument is used whenever one is provided. -/
theorem c9_counterexample :
    (buildInvokeCall "default-model" [] (some "")).modelId = "default-model" ∧
    (buildInvokeCall "default-model" [] (some "")).modelId ≠ "" :=
  ⟨rfl, by decide⟩

/-- C9 (amended): the model identifier passed to the invoke call is the
explicit `model` argument whenever a NON-EMPTY one is provided, and the
adapter's configured default when the argument is absent or empty. -/
theorem c9_model_resolution (dm : String) (ms : List Message) (model : Option String) :
    (∀ s, model = some s → s ≠ "" → (buildInvokeCall dm ms model).modelId = s) ∧
    ((model = none ∨ model = some "") → (buildInvokeCall dm ms model).modelId = dm) := by
  constructor
  · intro s hs hne
    simp [buildInvokeCall, resolveModel, hs, pyTruthyStr, hne]
  · rintro (h | h) <;> simp [buildInvokeCall, resolveModel, h, pyTruthyStr]

/-- Witness for C9 at a non-empty explicit model and at an absent one. -/
theorem c9_witness :
    (buildInvokeCall "d" [] (some "claude-x")).modelId = "claude-x" ∧
    (buildInvokeCall "d" [] none).modelId = "d" :=
  ⟨(c9_model_resolution "d" [] (some "claude-x")).1 "claude-x" rfl (by decide),
   (c9_model_resolution "d" [] none).2 (Or.inl rfl)⟩

/-- C10: when the last system-role message has empty content (including a
missing content key, which defaults to `""`), the request body carries no
`system` field, because the extracted value is tested for truthiness. -/
theorem c10_empty_system_omitted (dm : String) (ms : List Message)
    (model : Option String) (m : Message)
    (hlast : (ms.filter isSystemMsg).getLast? = some m)
    (hempty : m.getContent = "") :
    (buildInvokeCall dm ms model).body.system = none := by
  have h1 : (convert_to_bedrock_messages ms).system = some "" := by
    rw [convert_system_eq, lastSys_eq_getLast, hlast]
    simp [hempty]
  simp [buildInvokeCall, h1, pyTruthyOptStr, pyTruthyStr]

/-- Witness for C10 at a system message whose content key is absent. -/
theorem c10_witness :
    (buildInvokeCall "d" [⟨some "system", none⟩] none).body.system = none :=
  c10_empty_system_omitted "d" [⟨some "system", none⟩] none
    ⟨some "system", none⟩ (by decide) rfl

end Bedrock
